import Mathlib

/-!
Verification of `proplot/axes/geo.py`, the cartographic-projection axes
module. The module's pure logic (option normalization, tick constraining,
validation, version shims, state caching) is embedded shallowly below:
Python floats become `ℚ` (every constant involved is exactly representable),
fallible methods return `Except PyErr`, and stateful methods are explicit
state transformers. Theorems about the embedded definitions follow the
definitions.
-/

/-- Python exceptions raised by this module. -/
inductive PyErr
  | valueError
  | indexError
deriving DecidableEq, Repr

/-- Python values that can flow into the option-normalization helpers:
`None`, booleans, strings, scalars, and 1-d numeric sequences
(`np.atleast_1d` of a scalar or boolean is a length-1 sequence). -/
inductive PyV
  | noneV
  | boolV (b : Bool)
  | strV (s : String)
  | numV (q : ℚ)
  | seqV (xs : List ℚ)
deriving DecidableEq, Repr

/-! ## Projection objects and `__init__` validation (`geo.py` lines 607-663, 1121-1175) -/

/-- The cartopy projection classes distinguished by `CartopyAxes.__init__`:
the eight polar classes from `proplot.crs`, the rectangular classes, and
everything else. -/
inductive CartopyCRSClass
  | northPolarStereo
  | northPolarGnomonic
  | northPolarAzimuthalEquidistant
  | northPolarLambertAzimuthalEqualArea
  | southPolarStereo
  | southPolarGnomonic
  | southPolarAzimuthalEquidistant
  | southPolarLambertAzimuthalEqualArea
  | plateCarree
  | mercator
  | otherProjection
deriving DecidableEq, Repr

/-- The attributes of a `mpl_toolkits.basemap.Basemap` object read by
`BasemapAxes.__init__`: the projection name, the optional `boundinglat`
attribute, the central longitude, and the optional corner attributes. -/
structure BasemapObject where
  projection : String
  boundinglat : Option ℚ
  lon0 : ℚ
  lonmin : Option ℚ
  lonmax : Option ℚ
  latmin : Option ℚ
  latmax : Option ℚ
deriving DecidableEq, Repr

/-- A Python object passed as the `map_projection` argument: `None`
(the default), a cartopy `crs.Projection` instance, a `Basemap` instance,
or any other object. -/
inductive PyObj
  | noneObj
  | cartopyCRS (cls : CartopyCRSClass)
  | basemapObj (b : BasemapObject)
  | otherObj
deriving DecidableEq, Repr

/-- Embeds `isinstance(map_projection, ccrs.Projection)`. -/
def isinstance_cartopy_Projection : PyObj → Bool
  | .cartopyCRS _ => true
  | _ => false

/-- Embeds `isinstance(map_projection, mbasemap.Basemap)`. -/
def isinstance_Basemap : PyObj → Bool
  | .basemapObj _ => true
  | _ => false

/-- Membership in `CartopyAxes._proj_polar` (the eight polar projection
classes, `geo.py` lines 593-605). -/
def cartopy_proj_polar : CartopyCRSClass → Bool
  | .plateCarree | .mercator | .otherProjection => false
  | _ => true

/-- The attributes assigned by the validation and default-selection part of
`CartopyAxes.__init__` (`geo.py` lines 627-647). -/
structure CartopyInitResult where
  latmax : ℚ
  boundinglat : Option ℚ
  polar : Bool
deriving DecidableEq, Repr

/-- Embeds `CartopyAxes.__init__` (`geo.py` lines 607-647): the
`isinstance` check raising `ValueError`, then the default `latmax` and
`boundinglat` for polar projections. -/
def CartopyAxes_init (map_projection : PyObj) : Except PyErr CartopyInitResult :=
  match map_projection with
  | .cartopyCRS cls =>
      let polar := cartopy_proj_polar cls
      let latmax : ℚ := if polar then 80 else 90
      let boundinglat : Option ℚ :=
        if polar then
          if cls = .northPolarGnomonic then some 30
          else if cls = .southPolarGnomonic then some (-30)
          else some 0
        else none
      .ok ⟨latmax, boundinglat, polar⟩
  | _ => .error .valueError

/-- `BasemapAxes._proj_north` (`geo.py` line 1111). -/
def basemap_proj_north : List String := ["npaeqd", "nplaea", "npstere"]

/-- `BasemapAxes._proj_south` (`geo.py` line 1112). -/
def basemap_proj_south : List String := ["spaeqd", "splaea", "spstere"]

/-- The attributes computed by the validation and extent-selection part of
`BasemapAxes.__init__` (`geo.py` lines 1142-1163). -/
structure BasemapInitResult where
  latmax : ℚ
  extent : List ℚ
deriving DecidableEq, Repr

/-- Embeds `BasemapAxes.__init__` (`geo.py` lines 1121-1163): the
`isinstance` check raising `ValueError`, then the default gridline
`latmax` and initial extent. -/
def BasemapAxes_init (map_projection : PyObj) : Except PyErr BasemapInitResult :=
  match map_projection with
  | .basemapObj b =>
      let lon0 := b.lon0
      if (basemap_proj_north ++ basemap_proj_south).contains b.projection then
        let boundinglat := b.boundinglat.getD 0
        let extent :=
          if basemap_proj_north.contains b.projection then
            [-180 + lon0, 180 + lon0, boundinglat, 90]
          else
            [-180 + lon0, 180 + lon0, -90, boundinglat]
        .ok ⟨80, extent⟩
      else
        if b.lonmin.isNone ∨ b.lonmax.isNone ∨ b.latmin.isNone ∨ b.latmax.isNone then
          .ok ⟨90, [180 - lon0, 180 + lon0, -90, 90]⟩
        else
          .ok ⟨90, [b.lonmin.getD 0, b.lonmax.getD 0, b.latmin.getD 0, b.latmax.getD 0]⟩
  | _ => .error .valueError

/-! ## `GeoAxes._to_label_array` (`geo.py` lines 553-577) -/

/-- The common tail of `_to_label_array` after `array` has been built from
the argument: pad a length-1 array with a trailing `0`, place a length-2
array in the bottom-and-top slots (`lon=True`) or the left-and-right slots
(`lon=False`), raise `ValueError` when the length is not 4. -/
def _label_array_tail (array0 : List ℚ) (lon : Bool) : Except PyErr (List (Option ℚ)) :=
  let array := if array0.length = 1 then array0 ++ [0] else array0
  if array.length = 2 then
    .ok ((if lon then [0, 0] ++ array else array ++ [0, 0]).map some)
  else if array.length ≠ 4 then
    .error .valueError
  else
    .ok (array.map some)

/-- Embeds `GeoAxes._to_label_array(labels, lon)`: `None` becomes a 4-tuple
of `None`; a string becomes indicators of the characters `l`, `r`, `b`,
`t`; anything else goes through `np.atleast_1d` and the padding and
validation tail. -/
def _to_label_array (labels : PyV) (lon : Bool) : Except PyErr (List (Option ℚ)) :=
  match labels with
  | .noneV => .ok [none, none, none, none]
  | .strV s =>
      _label_array_tail
        [if s.contains 'l' then 1 else 0, if s.contains 'r' then 1 else 0,
         if s.contains 'b' then 1 else 0, if s.contains 't' then 1 else 0] lon
  | .boolV b => _label_array_tail [if b then 1 else 0] lon
  | .numV q => _label_array_tail [q] lon
  | .seqV xs => _label_array_tail xs lon

/-! ## `GeoAxes._axis_below_to_zorder` (`geo.py` lines 470-483) -/

/-- Embeds `GeoAxes._axis_below_to_zorder`: `True` gives zorder `0.5`,
`False` gives `2.5`, the string `'lines'` gives `1.5`, and every other
value raises `ValueError`. -/
def _axis_below_to_zorder : PyV → Except PyErr ℚ
  | .boolV true => .ok (1 / 2)
  | .boolV false => .ok (5 / 2)
  | v => if v = .strV "lines" then .ok (3 / 2) else .error .valueError

/-! ## Theorems for claims C1-C4 -/

/-- Claim C1: constructing an axes with an invalid projection type raises a
`ValueError` surfaced directly to the caller: `CartopyAxes.__init__` raises
`ValueError` for every `map_projection` that is not a
`cartopy.crs.Projection` instance, and `BasemapAxes.__init__` raises
`ValueError` for every `map_projection` that is not a `Basemap` instance. -/
theorem init_invalid_projection_raises (p q : PyObj) :
    (isinstance_cartopy_Projection p = false →
      CartopyAxes_init p = .error .valueError) ∧
    (isinstance_Basemap q = false →
      BasemapAxes_init q = .error .valueError) := by
  constructor
  · intro h
    cases p with
    | cartopyCRS cls => simp [isinstance_cartopy_Projection] at h
    | noneObj => rfl
    | basemapObj b => rfl
    | otherObj => rfl
  · intro h
    cases q with
    | basemapObj b => simp [isinstance_Basemap] at h
    | noneObj => rfl
    | cartopyCRS cls => rfl
    | otherObj => rfl

/-- Witness for C1: the default `map_projection=None` is rejected by both
constructors. -/
theorem init_invalid_projection_raises_witness :
    isinstance_cartopy_Projection .noneObj = false ∧
    CartopyAxes_init .noneObj = .error .valueError ∧
    isinstance_Basemap .noneObj = false ∧
    BasemapAxes_init .noneObj = .error .valueError :=
  ⟨rfl, (init_invalid_projection_raises .noneObj .noneObj).1 rfl, rfl,
   (init_invalid_projection_raises .noneObj .noneObj).2 rfl⟩

/-- Claim C2, as stated, is false: an empty sequence also raises
`ValueError`, although its 1-d array form has length 0, which is neither 3
nor greater than 4. -/
theorem to_label_array_empty_seq_counterexample :
    _to_label_array (.seqV []) true = .error .valueError ∧
    ¬ (([] : List ℚ).length = 3 ∨ 4 < ([] : List ℚ).length) := by
  exact ⟨rfl, by simp⟩

/-- Claim C2 (amended): `_to_label_array(labels, lon)` raises `ValueError`
exactly when `labels` is neither `None` nor a string and its 1-d array form
has length different from 1, 2 and 4 (that is, length 0, 3, or greater
than 4); for every other input it returns without raising. -/
theorem to_label_array_error_iff (labels : PyV) (lon : Bool) :
    _to_label_array labels lon = .error .valueError ↔
      ∃ xs, labels = .seqV xs ∧
        xs.length ≠ 1 ∧ xs.length ≠ 2 ∧ xs.length ≠ 4 := by
  cases labels with
  | noneV => simp [_to_label_array]
  | strV s => simp [_to_label_array, _label_array_tail]
  | boolV b => simp [_to_label_array, _label_array_tail]
  | numV q => simp [_to_label_array, _label_array_tail]
  | seqV xs =>
    simp only [_to_label_array, _label_array_tail, PyV.seqV.injEq, exists_eq_left']
    split_ifs with h1 h2 h3 <;> simp_all

/-- Claim C3: option normalization of label sides. A string maps to the
length-4 indicator array of the characters `l`, `r`, `b`, `t`; a length-2
sequence is placed in the (bottom, top) slots when `lon` is true and in the
(left, right) slots when `lon` is false, the rest zero; `None` maps to a
4-tuple of `None`. -/
theorem to_label_array_normalization (s : String) (lon : Bool) (a b : ℚ) :
    _to_label_array (.strV s) lon =
      .ok [some (if s.contains 'l' then 1 else 0),
           some (if s.contains 'r' then 1 else 0),
           some (if s.contains 'b' then 1 else 0),
           some (if s.contains 't' then 1 else 0)] ∧
    _to_label_array (.seqV [a, b]) true = .ok [some 0, some 0, some a, some b] ∧
    _to_label_array (.seqV [a, b]) false = .ok [some a, some b, some 0, some 0] ∧
    _to_label_array .noneV lon = .ok [none, none, none, none] := by
  refine ⟨?_, ?_, ?_, rfl⟩ <;> simp [_to_label_array, _label_array_tail]

/-- Claim C4: `_axis_below_to_zorder` maps `True` to `0.5`, `False` to
`2.5`, the string `'lines'` to `1.5`, and raises `ValueError` on every
other value. -/
theorem axis_below_to_zorder_spec (v : PyV) :
    _axis_below_to_zorder (.boolV true) = .ok (1 / 2) ∧
    _axis_below_to_zorder (.boolV false) = .ok (5 / 2) ∧
    _axis_below_to_zorder (.strV "lines") = .ok (3 / 2) ∧
    (v ≠ .boolV true → v ≠ .boolV false → v ≠ .strV "lines" →
      _axis_below_to_zorder v = .error .valueError) := by
  refine ⟨rfl, rfl, by simp [_axis_below_to_zorder], ?_⟩
  intro h1 h2 h3
  cases v with
  | boolV b => cases b <;> simp_all
  | noneV => simp [_axis_below_to_zorder]
  | strV s => simp_all [_axis_below_to_zorder]
  | numV q => simp [_axis_below_to_zorder]
  | seqV xs => simp [_axis_below_to_zorder]

/-- Witness for C4: the string `'below'` raises `ValueError`. -/
theorem axis_below_to_zorder_witness :
    _axis_below_to_zorder (.strV "below") = .error .valueError :=
  (axis_below_to_zorder_spec (.strV "below")).2.2.2
    (by decide) (by decide) (by decide)

/-! ## Gridliner caching (`geo.py` lines 906-918, 956-963) -/

/-- The gridliner cache of a `CartopyAxes`: the cached major and minor
gridliner objects (identified by creation index, `None` until created) and
the number of gridliner objects created so far by `_init_gridlines`. -/
structure GridlinerCache where
  gridlines_major : Option ℕ
  gridlines_minor : Option ℕ
  created : ℕ
deriving DecidableEq, Repr

/-- Embeds `CartopyAxes._init_gridlines`: creates a fresh gridliner object
and returns it together with the updated creation count. -/
def _init_gridlines (s : GridlinerCache) : ℕ × GridlinerCache :=
  (s.created, { s with created := s.created + 1 })

/-- Embeds the caching part of `CartopyAxes._update_major_gridlines`:
`if not self._gridlines_major: self._gridlines_major = self._init_gridlines()`
(`None` is falsy, a created gridliner object is truthy). -/
def _update_major_gridlines (s : GridlinerCache) : GridlinerCache :=
  match s.gridlines_major with
  | none =>
      let r := _init_gridlines s
      { r.2 with gridlines_major := some r.1 }
  | some _ => s

/-- Embeds the caching part of `CartopyAxes._update_minor_gridlines`. -/
def _update_minor_gridlines (s : GridlinerCache) : GridlinerCache :=
  match s.gridlines_minor with
  | none =>
      let r := _init_gridlines s
      { r.2 with gridlines_minor := some r.1 }
  | some _ => s

/-- The gridliner-cache effect of one `GeoAxes.format` call
(`geo.py` lines 459-465): update major gridlines, then minor gridlines. -/
def formatGridlines (s : GridlinerCache) : GridlinerCache :=
  _update_minor_gridlines (_update_major_gridlines s)

theorem update_major_isSome (s : GridlinerCache) :
    (_update_major_gridlines s).gridlines_major.isSome = true := by
  unfold _update_major_gridlines _init_gridlines
  cases hm : s.gridlines_major <;> simp [hm]

theorem update_minor_preserves_major (s : GridlinerCache) :
    (_update_minor_gridlines s).gridlines_major = s.gridlines_major := by
  unfold _update_minor_gridlines _init_gridlines
  cases s.gridlines_minor <;> simp

theorem update_minor_isSome (s : GridlinerCache) :
    (_update_minor_gridlines s).gridlines_minor.isSome = true := by
  unfold _update_minor_gridlines _init_gridlines
  cases hm : s.gridlines_minor <;> simp [hm]

theorem update_major_of_some (s : GridlinerCache)
    (h : s.gridlines_major.isSome = true) : _update_major_gridlines s = s := by
  unfold _update_major_gridlines
  cases hm : s.gridlines_major with
  | none => rw [hm] at h; simp at h
  | some g => rfl

theorem update_minor_of_some (s : GridlinerCache)
    (h : s.gridlines_minor.isSome = true) : _update_minor_gridlines s = s := by
  unfold _update_minor_gridlines
  cases hm : s.gridlines_minor with
  | none => rw [hm] at h; simp at h
  | some g => rfl

theorem formatGridlines_idem (s : GridlinerCache) :
    formatGridlines (formatGridlines s) = formatGridlines s := by
  have hmaj : (formatGridlines s).gridlines_major.isSome = true := by
    unfold formatGridlines
    rw [update_minor_preserves_major]
    exact update_major_isSome s
  have hmin : (formatGridlines s).gridlines_minor.isSome = true :=
    update_minor_isSome _
  calc formatGridlines (formatGridlines s)
      = _update_minor_gridlines (_update_major_gridlines (formatGridlines s)) := rfl
    _ = _update_minor_gridlines (formatGridlines s) := by
          rw [update_major_of_some _ hmaj]
    _ = formatGridlines s := update_minor_of_some _ hmin

theorem formatGridlines_iterate (n : ℕ) (s : GridlinerCache) :
    formatGridlines^[n] (formatGridlines s) = formatGridlines s := by
  induction n generalizing s with
  | zero => rfl
  | succ m ih =>
      rw [Function.iterate_succ_apply, formatGridlines_idem]
      exact ih s

/-- Claim C5: the cartopy major and minor gridliners are created at most
once per axes. If the cached gridliner exists, the update methods reuse it
and create nothing new, and repeated `format()` calls are equivalent to a
single one on the gridliner cache, so no second gridliner is ever
created. -/
theorem gridliner_cache_spec (s : GridlinerCache) (n : ℕ) :
    (∀ g, s.gridlines_major = some g → _update_major_gridlines s = s) ∧
    (∀ g, s.gridlines_minor = some g → _update_minor_gridlines s = s) ∧
    formatGridlines^[n + 1] s = formatGridlines s := by
  refine ⟨?_, ?_, ?_⟩
  · intro g hg
    exact update_major_of_some s (by rw [hg]; rfl)
  · intro g hg
    exact update_minor_of_some s (by rw [hg]; rfl)
  · rw [Function.iterate_succ_apply]
    exact formatGridlines_iterate n s

/-- Witness for C5: a cache whose gridliners already exist is left exactly
as it is, and two `format` calls equal one. -/
theorem gridliner_cache_spec_witness :
    _update_major_gridlines ⟨some 0, some 1, 2⟩ = ⟨some 0, some 1, 2⟩ ∧
    _update_minor_gridlines ⟨some 0, some 1, 2⟩ = ⟨some 0, some 1, 2⟩ ∧
    formatGridlines^[1] ⟨some 0, some 1, 2⟩ = formatGridlines ⟨some 0, some 1, 2⟩ :=
  ⟨(gridliner_cache_spec ⟨some 0, some 1, 2⟩ 0).1 0 rfl,
   (gridliner_cache_spec ⟨some 0, some 1, 2⟩ 0).2.1 1 rfl,
   (gridliner_cache_spec ⟨some 0, some 1, 2⟩ 0).2.2⟩

/-! ## `CartopyAxes._toggle_gridliner_labels` (`geo.py` lines 747-769) -/

/-- A cartopy gridliner's label-toggle attributes: the names used by
cartopy 0.18 and later, and the names used by earlier versions. Attributes
not yet assigned are `none`. -/
structure Gridliner where
  left_labels : Option Bool
  right_labels : Option Bool
  bottom_labels : Option Bool
  top_labels : Option Bool
  ylabels_left : Option Bool
  ylabels_right : Option Bool
  xlabels_bottom : Option Bool
  xlabels_top : Option Bool
deriving DecidableEq, Repr

/-- Embeds `_version_cartopy >= _version('0.18')` on (major, minor)
version pairs. -/
def cartopyVersionAtLeast (v w : ℕ × ℕ) : Bool :=
  decide (w.1 < v.1 ∨ (w.1 = v.1 ∧ w.2 ≤ v.2))

/-- Embeds `CartopyAxes._toggle_gridliner_labels`: pick the attribute names
according to the cartopy version, then `setattr` each attribute whose
corresponding argument is not `None`. -/
def _toggle_gridliner_labels (ver : ℕ × ℕ) (gl : Gridliner)
    (left right bottom top : Option Bool) : Gridliner :=
  if cartopyVersionAtLeast ver (0, 18) then
    let gl1 := match left with
      | some v => { gl with left_labels := some v }
      | none => gl
    let gl2 := match right with
      | some v => { gl1 with right_labels := some v }
      | none => gl1
    let gl3 := match bottom with
      | some v => { gl2 with bottom_labels := some v }
      | none => gl2
    match top with
    | some v => { gl3 with top_labels := some v }
    | none => gl3
  else
    let gl1 := match left with
      | some v => { gl with ylabels_left := some v }
      | none => gl
    let gl2 := match right with
      | some v => { gl1 with ylabels_right := some v }
      | none => gl1
    let gl3 := match bottom with
      | some v => { gl2 with xlabels_bottom := some v }
      | none => gl2
    match top with
    | some v => { gl3 with xlabels_top := some v }
    | none => gl3

/-- Claim C7: the compatibility shim assigns each non-`None` argument to
the `left_labels` / `right_labels` / `bottom_labels` / `top_labels`
attribute when the cartopy version is at least 0.18 and to the
`ylabels_left` / `ylabels_right` / `xlabels_bottom` / `xlabels_top`
attribute when it is below 0.18, and it never assigns an attribute whose
corresponding argument is `None` (all other attributes are unchanged). -/
theorem toggle_gridliner_labels_spec (ver : ℕ × ℕ) (gl : Gridliner)
    (left right bottom top : Option Bool) :
    (cartopyVersionAtLeast ver (0, 18) = true →
      (_toggle_gridliner_labels ver gl left right bottom top).left_labels
          = (if left.isSome then left else gl.left_labels) ∧
      (_toggle_gridliner_labels ver gl left right bottom top).right_labels
          = (if right.isSome then right else gl.right_labels) ∧
      (_toggle_gridliner_labels ver gl left right bottom top).bottom_labels
          = (if bottom.isSome then bottom else gl.bottom_labels) ∧
      (_toggle_gridliner_labels ver gl left right bottom top).top_labels
          = (if top.isSome then top else gl.top_labels) ∧
      (_toggle_gridliner_labels ver gl left right bottom top).ylabels_left
          = gl.ylabels_left ∧
      (_toggle_gridliner_labels ver gl left right bottom top).ylabels_right
          = gl.ylabels_right ∧
      (_toggle_gridliner_labels ver gl left right bottom top).xlabels_bottom
          = gl.xlabels_bottom ∧
      (_toggle_gridliner_labels ver gl left right bottom top).xlabels_top
          = gl.xlabels_top) ∧
    (cartopyVersionAtLeast ver (0, 18) = false →
      (_toggle_gridliner_labels ver gl left right bottom top).ylabels_left
          = (if left.isSome then left else gl.ylabels_left) ∧
      (_toggle_gridliner_labels ver gl left right bottom top).ylabels_right
          = (if right.isSome then right else gl.ylabels_right) ∧
      (_toggle_gridliner_labels ver gl left right bottom top).xlabels_bottom
          = (if bottom.isSome then bottom else gl.xlabels_bottom) ∧
      (_toggle_gridliner_labels ver gl left right bottom top).xlabels_top
          = (if top.isSome then top else gl.xlabels_top) ∧
      (_toggle_gridliner_labels ver gl left right bottom top).left_labels
          = gl.left_labels ∧
      (_toggle_gridliner_labels ver gl left right bottom top).right_labels
          = gl.right_labels ∧
      (_toggle_gridliner_labels ver gl left right bottom top).bottom_labels
          = gl.bottom_labels ∧
      (_toggle_gridliner_labels ver gl left right bottom top).top_labels
          = gl.top_labels) := by
  constructor <;> intro hv <;>
    simp only [_toggle_gridliner_labels, hv, if_true, if_false,
      Bool.false_eq_true, Bool.true_eq_false] <;>
    cases left <;> cases right <;> cases bottom <;> cases top <;> simp

/-- Witness for C7: on cartopy 0.18 the `left` toggle lands in
`left_labels`; on cartopy 0.17 it lands in `ylabels_left`. -/
theorem toggle_gridliner_labels_spec_witness :
    (_toggle_gridliner_labels (0, 18) ⟨none, none, none, none, none, none, none, none⟩
        (some true) none (some false) none).left_labels
      = (if (some true : Option Bool).isSome then some true
         else (⟨none, none, none, none, none, none, none, none⟩ : Gridliner).left_labels) ∧
    (_toggle_gridliner_labels (0, 17) ⟨none, none, none, none, none, none, none, none⟩
        (some true) none (some false) none).ylabels_left
      = (if (some true : Option Bool).isSome then some true
         else (⟨none, none, none, none, none, none, none, none⟩ : Gridliner).ylabels_left) :=
  ⟨((toggle_gridliner_labels_spec (0, 18) ⟨none, none, none, none, none, none, none, none⟩
      (some true) none (some false) none).1 rfl).1,
   ((toggle_gridliner_labels_spec (0, 17) ⟨none, none, none, none, none, none, none, none⟩
      (some true) none (some false) none).2 rfl).1⟩

/-! ## `BasemapAxes._update_extent` (`geo.py` lines 1194-1207) -/

/-- The axes state observable by `BasemapAxes._update_extent`: the map
extent, the dummy-axis view intervals, and the bounding latitude. -/
structure BasemapAxesState where
  mapExtent : List ℚ
  lonInterval : Option (ℚ × ℚ)
  latInterval : Option (ℚ × ℚ)
  boundinglat : Option ℚ
deriving DecidableEq, Repr

/-- Warnings emitted through `warnings._warn_proplot`. -/
inductive ProplotWarning
  | basemapCannotZoom
deriving DecidableEq, Repr

/-- Embeds `BasemapAxes._update_extent`: the body only warns (when any of
the three arguments is not `None`) and never assigns anything. -/
def BasemapAxes_update_extent (s : BasemapAxesState)
    (lonlim latlim : Option (ℚ × ℚ)) (boundinglat : Option ℚ) :
    BasemapAxesState × List ProplotWarning :=
  if lonlim ≠ none ∨ latlim ≠ none ∨ boundinglat ≠ none then
    (s, [.basemapCannotZoom])
  else
    (s, [])

/-- Claim C9: `BasemapAxes._update_extent` is a pure no-op on the axes
state for every combination of arguments, and it emits a warning exactly
when at least one of `lonlim`, `latlim`, `boundinglat` is not `None`. -/
theorem basemap_update_extent_spec (s : BasemapAxesState)
    (lonlim latlim : Option (ℚ × ℚ)) (boundinglat : Option ℚ) :
    (BasemapAxes_update_extent s lonlim latlim boundinglat).1 = s ∧
    ((BasemapAxes_update_extent s lonlim latlim boundinglat).2 ≠ [] ↔
      (lonlim ≠ none ∨ latlim ≠ none ∨ boundinglat ≠ none)) := by
  unfold BasemapAxes_update_extent
  split_ifs with h <;> simp [h]

/-! ## `GeoAxes.format` keyword routing (`geo.py` lines 219-236, 371-468) -/

/-- The keyword-only parameter names declared in the signature of
`GeoAxes.format` (`geo.py` lines 219-235). A call's keyword arguments with
these names are bound to parameters; everything else lands in `**kwargs`. -/
def geoFormatKeys : List String :=
  ["lonlim", "latlim", "boundinglat",
   "longrid", "latgrid", "longridminor", "latgridminor",
   "lonlocator", "lonlines",
   "latlocator", "latlines", "latmax",
   "lonminorlocator", "lonminorlines",
   "latminorlocator", "latminorlines",
   "lonlocator_kw", "lonlines_kw",
   "latlocator_kw", "latlines_kw",
   "lonminorlocator_kw", "lonminorlines_kw",
   "latminorlocator_kw", "latminorlines_kw",
   "lonformatter", "latformatter",
   "lonformatter_kw", "latformatter_kw",
   "labels", "latlabels", "lonlabels",
   "loninline", "latinline", "rotate_labels", "labelpad", "dms",
   "patch_kw"]

/-- Keyword binding for a call: the value bound to a declared parameter
name, defaulting to `None` when the caller did not pass it. -/
def lookupKw (call : List (String × PyV)) (key : String) : PyV :=
  match call.find? (fun kv => kv.1 == key) with
  | some kv => kv.2
  | none => .noneV

/-- Modelled from the spec: `_not_none` (imported from the package
internals, not present under the geo module) returns its first argument
unless that argument is `None`, in which case it returns the fallback, per
its uses such as `lonlabels = _not_none(lonlabels, labels)`. -/
def _not_none (a fallback : PyV) : PyV :=
  match a with
  | .noneV => fallback
  | _ => a

/-- The ambient rc configuration seen by `format`: which keyword names
`_parse_format` routes into the rc context, and the values `rc.get`
returns inside the context. -/
structure RcEnv where
  rcKeys : List String
  get : String → PyV

/-- Modelled from the spec: `Axes._parse_format` (defined on the base axes
class, not present under the geo module) splits the unrecognized keyword
arguments into rc-context settings and remaining keyword arguments, per
the documented behavior that unknown keyword arguments are passed to
`Axes.format` and `rc_configurator.context`. -/
def _parse_format (env : RcEnv) (kwargs : List (String × PyV)) :
    List (String × PyV) × List (String × PyV) :=
  (kwargs.filter fun kv => env.rcKeys.contains kv.1,
   kwargs.filter fun kv => !(env.rcKeys.contains kv.1))

/-- The externally visible steps of one `GeoAxes.format` call: entering the
rc context, applying the geographic settings (with the normalized label
arrays), forwarding the remaining keyword arguments to the parent
`Axes.format`, and leaving the context. -/
inductive FormatStep
  | enterRcContext (rcKw : List (String × PyV))
  | applyGeoSettings (lonarray latarray : List (Option ℚ))
  | superFormat (kwargs : List (String × PyV))
  | exitRcContext
deriving DecidableEq, Repr

/-- Embeds the keyword routing of `GeoAxes.format` (`geo.py` lines
371-468): declared geographic keywords are bound to parameters, the rest
goes through `_parse_format`; inside the rc context the label arguments
are normalized with `_to_label_array` (whose `ValueError` propagates), the
geographic workers run, and finally `super().format(**kwargs)` receives
the remaining keyword arguments. -/
def GeoAxes_format (env : RcEnv) (call : List (String × PyV)) :
    Except PyErr (List FormatStep) :=
  let kwargs0 := call.filter fun kv => !(geoFormatKeys.contains kv.1)
  let parsed := _parse_format env kwargs0
  let labels := _not_none (lookupKw call "labels") (env.get "grid.labels")
  let lonlabels := _not_none (lookupKw call "lonlabels") labels
  let latlabels := _not_none (lookupKw call "latlabels") labels
  match _to_label_array lonlabels true with
  | .error e => .error e
  | .ok lonarray =>
    match _to_label_array latlabels false with
    | .error e => .error e
    | .ok latarray =>
      .ok [FormatStep.enterRcContext parsed.1,
           FormatStep.applyGeoSettings lonarray latarray,
           FormatStep.superFormat parsed.2,
           FormatStep.exitRcContext]

/-- Claim C6: `GeoAxes.format` consumes only its declared geographic
keyword arguments and, after applying the geographic settings, always ends
by passing every remaining (unrecognized) keyword argument unchanged to
the parent `Axes.format` via `super().format(**kwargs)`, inside the rc
context produced by `_parse_format`. -/
theorem geo_format_kwargs_spec (env : RcEnv) (call : List (String × PyV))
    (tr : List FormatStep) (h : GeoAxes_format env call = .ok tr) :
    ∃ rcKw lonarray latarray,
      tr = [FormatStep.enterRcContext rcKw,
            FormatStep.applyGeoSettings lonarray latarray,
            FormatStep.superFormat
              ((call.filter fun kv => !(geoFormatKeys.contains kv.1)).filter
                fun kv => !(env.rcKeys.contains kv.1)),
            FormatStep.exitRcContext] ∧
      rcKw = (call.filter fun kv => !(geoFormatKeys.contains kv.1)).filter
               (fun kv => env.rcKeys.contains kv.1) := by
  simp only [GeoAxes_format, _parse_format] at h
  split at h
  · exact absurd h (by simp)
  · split at h
    · exact absurd h (by simp)
    · simp only [Except.ok.injEq] at h
      exact ⟨_, _, _, h.symm, rfl⟩

/-- A demonstration rc environment for the C6 witness: `facecolor` is an
rc-context keyword and every rc lookup returns `None`. -/
def rcEnvDemo : RcEnv := ⟨["facecolor"], fun _ => PyV.noneV⟩

/-- A demonstration call for the C6 witness: one unknown keyword, one
rc keyword, one declared geographic keyword. -/
def callDemo : List (String × PyV) :=
  [("title", PyV.numV 1), ("facecolor", PyV.numV 2), ("lonlim", PyV.numV 3)]

/-- The trace produced by `GeoAxes.format` on the demonstration call. -/
def traceDemo : List FormatStep :=
  [FormatStep.enterRcContext [("facecolor", PyV.numV 2)],
   FormatStep.applyGeoSettings [none, none, none, none] [none, none, none, none],
   FormatStep.superFormat [("title", PyV.numV 1)],
   FormatStep.exitRcContext]

/-- Witness for C6: on the demonstration call, `format` succeeds and the
`superFormat` step receives exactly the non-geographic, non-rc keyword
arguments. -/
theorem geo_format_kwargs_spec_witness :
    ∃ rcKw lonarray latarray,
      traceDemo = [FormatStep.enterRcContext rcKw,
            FormatStep.applyGeoSettings lonarray latarray,
            FormatStep.superFormat
              ((callDemo.filter fun kv => !(geoFormatKeys.contains kv.1)).filter
                fun kv => !(rcEnvDemo.rcKeys.contains kv.1)),
            FormatStep.exitRcContext] ∧
      rcKw = (callDemo.filter fun kv => !(geoFormatKeys.contains kv.1)).filter
               (fun kv => rcEnvDemo.rcKeys.contains kv.1) :=
  geo_format_kwargs_spec rcEnvDemo callDemo traceDemo rfl

/-! ## `_LatAxis._constrain_ticks` (`geo.py` lines 172-183) -/

/-- The nudge amount `eps = 1e-10` used by `_LatAxis._constrain_ticks`. -/
def _lat_eps : ℚ := 1 / 10 ^ 10

/-- Embeds `if ticks[-1] == 90: ticks[-1] -= eps`: replace the final
element by itself minus `eps` when it equals `90`. -/
def nudgeLast90 : List ℚ → List ℚ
  | [] => []
  | [x] => [if x = 90 then x - _lat_eps else x]
  | x :: y :: t => x :: nudgeLast90 (y :: t)

/-- Embeds `_LatAxis._constrain_ticks(ticks)`: filter the ticks to
`[-latmax, latmax]`, then index position 0 (raising `IndexError` on an
empty list, as `ticks[0]` does), nudging an initial `-90` up by `eps` and
a final `90` down by `eps`. -/
def _LatAxis_constrain_ticks (latmax : ℚ) (ticks : List ℚ) : Except PyErr (List ℚ) :=
  match ticks.filter (fun l => decide (-latmax ≤ l ∧ l ≤ latmax)) with
  | [] => .error .indexError
  | a :: rest => .ok (nudgeLast90 ((if a = -90 then a + _lat_eps else a) :: rest))

/-- Python's `list[-1]` as a total function: the last element, if any. -/
def pyLast? : List ℚ → Option ℚ
  | [] => none
  | [x] => some x
  | _ :: y :: t => pyLast? (y :: t)

theorem mem_nudgeLast90 (l : List ℚ) :
    ∀ x, x ∈ nudgeLast90 l → x ∈ l ∨ (x = 90 - _lat_eps ∧ (90 : ℚ) ∈ l) := by
  induction l with
  | nil => intro x hx; simp [nudgeLast90] at hx
  | cons a t ih =>
    cases t with
    | nil =>
      intro x hx
      simp only [nudgeLast90, List.mem_singleton] at hx
      by_cases ha : a = 90
      · rw [if_pos ha, ha] at hx
        exact Or.inr ⟨hx, by simp [ha]⟩
      · rw [if_neg ha] at hx
        exact Or.inl (by simp [hx])
    | cons b u =>
      intro x hx
      simp only [nudgeLast90, List.mem_cons] at hx
      rcases hx with hx | hx
      · exact Or.inl (by simp [hx])
      · rcases ih x hx with h | ⟨h1, h2⟩
        · exact Or.inl (List.mem_cons_of_mem a h)
        · exact Or.inr ⟨h1, List.mem_cons_of_mem a h2⟩

theorem pyLast?_nudgeLast90 (l : List ℚ) :
    pyLast? (nudgeLast90 l)
      = (pyLast? l).map (fun x => if x = 90 then x - _lat_eps else x) := by
  induction l with
  | nil => rfl
  | cons a t ih =>
    cases t with
    | nil => rfl
    | cons b u =>
      cases u with
      | nil => rfl
      | cons c v =>
        have h1 : pyLast? (nudgeLast90 (a :: b :: c :: v))
            = pyLast? (nudgeLast90 (b :: c :: v)) := rfl
        rw [h1, ih]
        rfl

/-- Claim C8: `_LatAxis._constrain_ticks` is partial. When no tick lies in
`[-latmax, latmax]` (in particular on an empty tick list) it raises
`IndexError`; when at least one tick lies in that range it returns a list
whose every element lies in the closed interval `[-latmax, latmax]`, with
an initial endpoint equal to `-90` nudged up by `1e-10` and a final
endpoint equal to `90` nudged down by `1e-10`. -/
theorem lat_constrain_ticks_spec (latmax : ℚ) (ticks : List ℚ) :
    ((∀ t ∈ ticks, ¬ (-latmax ≤ t ∧ t ≤ latmax)) →
        _LatAxis_constrain_ticks latmax ticks = .error .indexError) ∧
    ((∃ t ∈ ticks, -latmax ≤ t ∧ t ≤ latmax) →
      ∃ out, _LatAxis_constrain_ticks latmax ticks = .ok out ∧
        (∀ x ∈ out, -latmax ≤ x ∧ x ≤ latmax) ∧
        ((ticks.filter fun l => decide (-latmax ≤ l ∧ l ≤ latmax)).head?
              = some (-90) →
            out.head? = some (-90 + _lat_eps)) ∧
        (pyLast? (ticks.filter fun l => decide (-latmax ≤ l ∧ l ≤ latmax))
              = some 90 →
            pyLast? out = some (90 - _lat_eps))) := by
  constructor
  · intro hall
    have hf : ticks.filter (fun l => decide (-latmax ≤ l ∧ l ≤ latmax)) = [] := by
      rw [List.filter_eq_nil_iff]
      intro a ha
      simpa using hall a ha
    unfold _LatAxis_constrain_ticks
    rw [hf]
  · rintro ⟨t0, ht0, hrange⟩
    set f := ticks.filter (fun l => decide (-latmax ≤ l ∧ l ≤ latmax)) with hfdef
    have hne : f ≠ [] := by
      intro hnil
      have hmem : t0 ∈ f := List.mem_filter.mpr ⟨ht0, by simpa using hrange⟩
      rw [hnil] at hmem
      simp at hmem
    obtain ⟨a, rest, hcons⟩ := List.exists_cons_of_ne_nil hne
    have hmemf : ∀ x ∈ f, -latmax ≤ x ∧ x ≤ latmax := by
      intro x hx
      have hx2 := List.mem_filter.mp hx
      simpa using hx2.2
    have hunf : _LatAxis_constrain_ticks latmax ticks
        = .ok (nudgeLast90 ((if a = -90 then a + _lat_eps else a) :: rest)) := by
      unfold _LatAxis_constrain_ticks
      rw [← hfdef, hcons]
    have heps_pos : (0 : ℚ) < _lat_eps := by norm_num [_lat_eps]
    have heps_small : _lat_eps ≤ 180 := by norm_num [_lat_eps]
    refine ⟨_, hunf, ?_, ?_, ?_⟩
    · intro x hx
      rcases mem_nudgeLast90 _ x hx with hmem | ⟨hx90, h90⟩
      · rcases List.mem_cons.mp hmem with hq | hq
        · by_cases ha : a = -90
          · rw [if_pos ha, ha] at hq
            have haf : a ∈ f := by rw [hcons]; exact List.mem_cons_self a rest
            have har := hmemf a haf
            rw [ha] at har
            constructor
            · rw [hq]; linarith [har.1]
            · rw [hq]; linarith [har.1]
          · rw [if_neg ha] at hq
            rw [hq]
            exact hmemf a (by rw [hcons]; exact List.mem_cons_self a rest)
        · exact hmemf x (by rw [hcons]; exact List.mem_cons_of_mem a hq)
      · have h90f : (90 : ℚ) ∈ f := by
          rcases List.mem_cons.mp h90 with hq | hq
          · by_cases ha : a = -90
            · rw [if_pos ha, ha] at hq
              exfalso
              norm_num [_lat_eps] at hq
            · rw [if_neg ha] at hq
              rw [hcons, hq]
              exact List.mem_cons_self a rest
          · rw [hcons]
            exact List.mem_cons_of_mem a hq
        have har := hmemf 90 h90f
        constructor
        · rw [hx90]; linarith [har.2]
        · rw [hx90]; linarith [har.2]
    · intro hh
      rw [hcons] at hh
      simp only [List.head?_cons, Option.some.injEq] at hh
      subst hh
      cases rest with
      | nil =>
        rw [if_pos rfl]
        show (nudgeLast90 [(-90 : ℚ) + _lat_eps]).head? = some (-90 + _lat_eps)
        simp only [nudgeLast90]
        rw [if_neg (by norm_num [_lat_eps])]
        rfl
      | cons b u =>
        rw [if_pos rfl]
        rfl
    · intro hl
      rw [hcons] at hl
      cases rest with
      | nil =>
        simp only [pyLast?, Option.some.injEq] at hl
        subst hl
        rw [if_neg (by norm_num)]
        rw [pyLast?_nudgeLast90]
        simp [pyLast?]
      | cons b u =>
        have hl2 : pyLast? (b :: u) = some 90 := hl
        rw [pyLast?_nudgeLast90]
        have hstep : pyLast? ((if a = -90 then a + _lat_eps else a) :: b :: u)
            = pyLast? (b :: u) := rfl
        rw [hstep, hl2]
        simp

/-- Witness for C8: with `latmax = 90` and ticks `[-90, 0, 90]`, the
precondition holds and both endpoints are nudged. -/
theorem lat_constrain_ticks_spec_witness :
    ∃ out, _LatAxis_constrain_ticks 90 [-90, 0, 90] = .ok out ∧
      (∀ x ∈ out, -(90 : ℚ) ≤ x ∧ x ≤ 90) ∧
      ((([-90, 0, 90] : List ℚ).filter fun l => decide (-(90 : ℚ) ≤ l ∧ l ≤ 90)).head?
            = some (-90) →
          out.head? = some (-90 + _lat_eps)) ∧
      (pyLast? (([-90, 0, 90] : List ℚ).filter fun l => decide (-(90 : ℚ) ≤ l ∧ l ≤ 90))
            = some 90 →
          pyLast? out = some (90 - _lat_eps)) :=
  (lat_constrain_ticks_spec 90 [-90, 0, 90]).2 ⟨0, by simp, by norm_num⟩

/-! ## `_LonAxis._constrain_ticks` (`geo.py` lines 137-142) -/

/-- The tolerance `eps = 5e-10` used by `_LonAxis._constrain_ticks`. -/
def _lon_eps : ℚ := 5 / 10 ^ 10

/-- The stopping condition of the `while` loop: the list is empty or it
spans at most 360 degrees plus the tolerance `2 * eps`. -/
def spanOK (l : List ℚ) : Prop :=
  l = [] ∨ l.getLast! - l.head! ≤ 360 + 2 * _lon_eps

instance (l : List ℚ) : Decidable (spanOK l) := by
  unfold spanOK
  infer_instance

/-- Embeds the `while` loop of `_LonAxis._constrain_ticks`:
`while ticks and ticks[-1] - eps > ticks[0] + 360 + eps: ticks = ticks[:-1]`.
The fuel argument bounds the number of iterations; each iteration drops
one element, so fuel equal to the list length suffices. -/
def cutLoopedTicks : ℕ → List ℚ → List ℚ
  | 0, ticks => ticks
  | n + 1, ticks =>
      if ticks ≠ [] ∧ ticks.getLast! - _lon_eps > ticks.head! + 360 + _lon_eps then
        cutLoopedTicks n ticks.dropLast
      else ticks

/-- Embeds `_LonAxis._constrain_ticks(ticks)`: sort the ticks, then cut
off looped ticks from the upper end. -/
def _LonAxis_constrain_ticks (ticks : List ℚ) : List ℚ :=
  cutLoopedTicks (List.insertionSort (fun a b => a ≤ b) ticks).length
    (List.insertionSort (fun a b => a ≤ b) ticks)

theorem not_spanOK_of_guard {l : List ℚ}
    (h : l ≠ [] ∧ l.getLast! - _lon_eps > l.head! + 360 + _lon_eps) :
    ¬ spanOK l := by
  intro hs
  rcases hs with hnil | hle
  · exact h.1 hnil
  · linarith [h.2]

theorem spanOK_of_not_guard {l : List ℚ}
    (h : ¬ (l ≠ [] ∧ l.getLast! - _lon_eps > l.head! + 360 + _lon_eps)) :
    spanOK l := by
  by_cases hnil : l = []
  · exact Or.inl hnil
  · push_neg at h
    have h2 := h hnil
    exact Or.inr (by linarith)

theorem cutLoopedTicks_spec (n : ℕ) :
    ∀ l : List ℚ, l.length ≤ n →
      ∃ k, k ≤ l.length ∧ cutLoopedTicks n l = l.take k ∧ spanOK (l.take k) ∧
        ∀ j, k < j → j ≤ l.length → ¬ spanOK (l.take j) := by
  induction n with
  | zero =>
    intro l hl
    have hnil : l = [] := List.length_eq_zero.mp (Nat.le_zero.mp hl)
    subst hnil
    exact ⟨0, Nat.le_refl 0, rfl, Or.inl rfl,
      fun j hj hj2 => absurd (Nat.lt_of_lt_of_le hj hj2) (Nat.lt_irrefl 0)⟩
  | succ n ih =>
    intro l hl
    by_cases hg : l ≠ [] ∧ l.getLast! - _lon_eps > l.head! + 360 + _lon_eps
    · have hlpos : 0 < l.length := List.length_pos.mpr hg.1
      have hstep : cutLoopedTicks (n + 1) l = cutLoopedTicks n l.dropLast := by
        simp only [cutLoopedTicks]
        rw [if_pos hg]
      have hdl : l.dropLast.length ≤ n := by
        rw [List.length_dropLast]
        omega
      obtain ⟨k, hk, heq, hok, hmin⟩ := ih l.dropLast hdl
      rw [List.length_dropLast] at hk
      have htk : ∀ m, m ≤ l.length - 1 → l.dropLast.take m = l.take m := by
        intro m hm
        rw [List.dropLast_eq_take, List.take_take]
        congr 1
        omega
      refine ⟨k, by omega, ?_, ?_, ?_⟩
      · rw [hstep, heq, htk k hk]
      · rw [← htk k hk]
        exact hok
      · intro j hj hj2
        by_cases hjlen : j ≤ l.length - 1
        · rw [← htk j hjlen]
          exact hmin j hj (by rw [List.length_dropLast]; omega)
        · have hjl : j = l.length := by omega
          rw [hjl, List.take_length]
          exact not_spanOK_of_guard hg
    · have hstep : cutLoopedTicks (n + 1) l = l := by
        simp only [cutLoopedTicks]
        rw [if_neg hg]
      refine ⟨l.length, Nat.le_refl _, ?_, ?_, ?_⟩
      · rw [hstep, List.take_length]
      · rw [List.take_length]
        exact spanOK_of_not_guard hg
      · intro j hj hj2
        exact absurd (Nat.lt_of_lt_of_le hj hj2) (Nat.lt_irrefl _)

/-- Claim C10: `_LonAxis._constrain_ticks` returns the sorted input with
zero or more of its largest elements removed, stopping as soon as the list
is empty or its last element minus its first is at most `360 + 2 * 5e-10`;
consequently the result is sorted and spans at most 360 degrees plus that
tolerance. -/
theorem lon_constrain_ticks_spec (ticks : List ℚ) :
    (List.insertionSort (fun a b => a ≤ b) ticks).Perm ticks ∧
    List.Sorted (fun a b => a ≤ b) (_LonAxis_constrain_ticks ticks) ∧
    ∃ k, k ≤ ticks.length ∧
      _LonAxis_constrain_ticks ticks
        = (List.insertionSort (fun a b => a ≤ b) ticks).take k ∧
      spanOK (_LonAxis_constrain_ticks ticks) ∧
      ∀ j, k < j → j ≤ ticks.length →
        ¬ spanOK ((List.insertionSort (fun a b => a ≤ b) ticks).take j) := by
  have hperm := List.perm_insertionSort (fun a b => a ≤ b) ticks
  have hlen : (List.insertionSort (fun a b => a ≤ b) ticks).length = ticks.length :=
    hperm.length_eq
  have hpair : (List.insertionSort (fun a b => a ≤ b) ticks).Pairwise
      (fun a b => a ≤ b) :=
    List.sorted_insertionSort (fun a b => a ≤ b) ticks
  obtain ⟨k, hk, heq, hok, hmin⟩ :=
    cutLoopedTicks_spec (List.insertionSort (fun a b => a ≤ b) ticks).length
      (List.insertionSort (fun a b => a ≤ b) ticks) (Nat.le_refl _)
  have hres : _LonAxis_constrain_ticks ticks
      = (List.insertionSort (fun a b => a ≤ b) ticks).take k := heq
  refine ⟨hperm, ?_, k, ?_, hres, ?_, ?_⟩
  · rw [hres]
    exact hpair.sublist (List.take_sublist k _)
  · rw [hlen] at hk
    exact hk
  · rw [hres]
    exact hok
  · intro j hj hj2
    exact hmin j hj (by rw [hlen]; exact hj2)

/-- Witness for C10: ticks `[400, 0]` sort to `[0, 400]`, which spans more
than 360 degrees, so the largest tick is cut and the sorted remainder
`[0]` is returned. -/
theorem lon_constrain_ticks_spec_witness :
    List.Sorted (fun a b => a ≤ b) (_LonAxis_constrain_ticks [400, 0]) ∧
    _LonAxis_constrain_ticks [400, 0] = [0] := by
  refine ⟨(lon_constrain_ticks_spec [400, 0]).2.1, ?_⟩
  have hg : ([0, 400] : List ℚ) ≠ [] ∧
      ([0, 400] : List ℚ).getLast! - _lon_eps
        > ([0, 400] : List ℚ).head! + 360 + _lon_eps := by
    refine ⟨by simp, ?_⟩
    rw [show (([0, 400] : List ℚ).getLast!) = 400 from rfl,
        show (([0, 400] : List ℚ).head!) = 0 from rfl]
    norm_num [_lon_eps]
  have hg2 : ¬ (([0] : List ℚ) ≠ [] ∧
      ([0] : List ℚ).getLast! - _lon_eps
        > ([0] : List ℚ).head! + 360 + _lon_eps) := by
    rintro ⟨-, habs⟩
    rw [show (([0] : List ℚ).getLast!) = 0 from rfl,
        show (([0] : List ℚ).head!) = 0 from rfl] at habs
    norm_num [_lon_eps] at habs
  have e1 : cutLoopedTicks 2 [0, 400] = cutLoopedTicks 1 [0] := by
    show (if ([0, 400] : List ℚ) ≠ [] ∧
        ([0, 400] : List ℚ).getLast! - _lon_eps
          > ([0, 400] : List ℚ).head! + 360 + _lon_eps then
        cutLoopedTicks 1 ([0, 400] : List ℚ).dropLast else [0, 400]) = cutLoopedTicks 1 [0]
    rw [if_pos hg]
    rfl
  have e2 : cutLoopedTicks 1 [0] = [0] := by
    show (if ([0] : List ℚ) ≠ [] ∧
        ([0] : List ℚ).getLast! - _lon_eps
          > ([0] : List ℚ).head! + 360 + _lon_eps then
        cutLoopedTicks 0 ([0] : List ℚ).dropLast else [0]) = [0]
    rw [if_neg hg2]
  have hsort : List.insertionSort (fun a b => a ≤ b) [(400 : ℚ), 0] = [0, 400] := by
    norm_num [List.insertionSort, List.orderedInsert]
  show cutLoopedTicks (List.insertionSort (fun a b => a ≤ b) [(400 : ℚ), 0]).length
      (List.insertionSort (fun a b => a ≤ b) [(400 : ℚ), 0]) = [0]
  rw [hsort]
  show cutLoopedTicks 2 [0, 400] = [0]
  rw [e1, e2]
